import Mathlib

/-!
Shallow embedding of the `sublimeai21/config` Go package
(`config.go`, `loader.go`, `validator.go`, `manager.go`).

Modelling conventions:
* `time.Duration` is an `Int` counted in nanoseconds.
* The process environment is a total function `Env := String → String`;
  `os.Getenv` on an absent key returns `""`, which the function models directly.
* `time.ParseDuration` (Go standard library, external to this repo) is passed
  in as a parameter `pd : String → Option Int`.
* Reading and unmarshalling a config file goes through the external `viper`
  library; the whole file source is passed in as a parameter
  `fd : String → Except String Config` (path to result).
* Go `nil` pointers become `Option`; a Go `(T, error)` return becomes
  `Except String T` or `T × Option e` as appropriate.
* `LoadStrategy` is an `Int` in Go (`type LoadStrategy int`); it is `Int`
  here so that unrecognized strategy values are expressible.
-/

namespace ConfigPkg

/-- One nanosecond-counted duration, as Go `time.Duration`. -/
abbrev Duration := Int

def timeSecond : Duration := 1000000000
def timeHour : Duration := 3600 * timeSecond

/-! ## config.go — the configuration record -/

/-- `ServerConfig` from config.go. -/
structure ServerConfig where
  Port : String
  Host : String
  ReadTimeout : Duration
  WriteTimeout : Duration
  IdleTimeout : Duration
  deriving Repr, DecidableEq

/-- `DatabaseConfig` from config.go (read/write split fields included). -/
structure DatabaseConfig where
  DBWriteHost : String
  DBWritePort : String
  DBWriteUser : String
  DBWritePassword : String
  DBWriteName : String
  DBReadHost : String
  DBReadPort : String
  DBReadUser : String
  DBReadPassword : String
  DBReadName : String
  Host : String
  Port : String
  User : String
  Password : String
  DBName : String
  SSLMode : String
  MaxConns : Int
  DBType : String
  Environment : String
  DatabaseConfigType : String
  deriving Repr, DecidableEq

/-- `RedisConfig` from config.go. -/
structure RedisConfig where
  Host : String
  Port : String
  Password : String
  DB : Int
  deriving Repr, DecidableEq

/-- `LogConfig` from config.go. -/
structure LogConfig where
  Level : String
  Format : String
  OutputPath : String
  deriving Repr, DecidableEq

/-- `JWTConfig` from config.go. -/
structure JWTConfig where
  Secret : String
  Expiration : Duration
  Issuer : String
  deriving Repr, DecidableEq

/-- `EmailConfig` from config.go. -/
structure EmailConfig where
  Host : String
  Port : Int
  Username : String
  Password : String
  From : String
  deriving Repr, DecidableEq

/-- `AppConfig` from config.go. -/
structure AppConfig where
  Name : String
  Environment : String
  Version : String
  Debug : Bool
  deriving Repr, DecidableEq

/-- `Config` from config.go. -/
structure Config where
  Server : ServerConfig
  Database : DatabaseConfig
  Redis : RedisConfig
  Log : LogConfig
  JWT : JWTConfig
  Email : EmailConfig
  App : AppConfig
  deriving Repr, DecidableEq

/-- Go zero value of `ServerConfig` (`ServerConfig{}`). -/
def ServerConfig.zero : ServerConfig :=
  { Port := "", Host := "", ReadTimeout := 0, WriteTimeout := 0, IdleTimeout := 0 }

/-- Go zero value of `DatabaseConfig` (`DatabaseConfig{}`). -/
def DatabaseConfig.zero : DatabaseConfig :=
  { DBWriteHost := "", DBWritePort := "", DBWriteUser := "", DBWritePassword := ""
    DBWriteName := "", DBReadHost := "", DBReadPort := "", DBReadUser := ""
    DBReadPassword := "", DBReadName := "", Host := "", Port := "", User := ""
    Password := "", DBName := "", SSLMode := "", MaxConns := 0, DBType := ""
    Environment := "", DatabaseConfigType := "" }

/-- Go zero value of `RedisConfig` (`RedisConfig{}`). -/
def RedisConfig.zero : RedisConfig :=
  { Host := "", Port := "", Password := "", DB := 0 }

/-- Go zero value of `LogConfig` (`LogConfig{}`). -/
def LogConfig.zero : LogConfig :=
  { Level := "", Format := "", OutputPath := "" }

/-- Go zero value of `JWTConfig` (`JWTConfig{}`). -/
def JWTConfig.zero : JWTConfig :=
  { Secret := "", Expiration := 0, Issuer := "" }

/-- Go zero value of `EmailConfig` (`EmailConfig{}`). -/
def EmailConfig.zero : EmailConfig :=
  { Host := "", Port := 0, Username := "", Password := "", From := "" }

/-- Go zero value of `AppConfig` (`AppConfig{}`). -/
def AppConfig.zero : AppConfig :=
  { Name := "", Environment := "", Version := "", Debug := false }

/-! ## loader.go — strategies, environment reading, load -/

/-- `type LoadStrategy int` from loader.go. -/
abbrev LoadStrategy := Int

/-- `EnvironmentStrategy LoadStrategy = iota` (= 0). -/
def EnvironmentStrategy : LoadStrategy := 0
/-- `FileStrategy` (= 1). -/
def FileStrategy : LoadStrategy := 1
/-- `HybridStrategy` (= 2). -/
def HybridStrategy : LoadStrategy := 2

/-- The process environment: `os.Getenv` semantics, absent keys map to `""`. -/
abbrev Env := String → String

/-- `getEnv` from loader.go: the variable's value if it is set and non-empty,
else the default. -/
def getEnv (env : Env) (key defaultValue : String) : String :=
  if env key ≠ "" then env key else defaultValue

/-- Decimal digit list to a number; `none` when the list is empty or holds a
non-digit. Helper for the integer-parsing models below. -/
def digitsToNat (l : List Char) : Option Nat :=
  if l ≠ [] ∧ l.all Char.isDigit then
    some (l.foldl (fun n c => n * 10 + (c.toNat - 48)) 0)
  else none

/-- Model of `fmt.Sscanf(s, "%d", &i)` used by `parseInt` in loader.go:
skip leading whitespace, read an optional sign and then a maximal run of
digits; succeeds iff at least one digit was read (trailing characters are
ignored). The 64-bit overflow behaviour is not modelled; no claim depends
on it. -/
def parseInt (s : String) : Option Int :=
  let l := s.data.dropWhile Char.isWhitespace
  match l with
  | '-' :: rest => (digitsToNat (rest.takeWhile Char.isDigit)).map (fun n => -(n : Int))
  | '+' :: rest => (digitsToNat (rest.takeWhile Char.isDigit)).map (fun n => (n : Int))
  | _ => (digitsToNat (l.takeWhile Char.isDigit)).map (fun n => (n : Int))

/-- Model of Go `strings.ToLower` on ASCII data: lowercase every character.
(Core's `String.toLower` is equivalent but not kernel-reducible, so the map
is spelled out on the character list.) -/
def lowerStr (s : String) : String := String.mk (s.data.map Char.toLower)

/-- `parseBool` from loader.go: case-insensitive membership in the accepted
true/false word lists, error otherwise. -/
def parseBool (s : String) : Option Bool :=
  let t := lowerStr s
  if t = "true" ∨ t = "1" ∨ t = "yes" ∨ t = "on" then some true
  else if t = "false" ∨ t = "0" ∨ t = "no" ∨ t = "off" then some false
  else none

/-- `getIntEnv` from loader.go: parse the variable when set and non-empty,
falling back to the default when absent, empty, or malformed. -/
def getIntEnv (env : Env) (key : String) (defaultValue : Int) : Int :=
  if env key ≠ "" then
    match parseInt (env key) with
    | some intValue => intValue
    | none => defaultValue
  else defaultValue

/-- `getBoolEnv` from loader.go. -/
def getBoolEnv (env : Env) (key : String) (defaultValue : Bool) : Bool :=
  if env key ≠ "" then
    match parseBool (env key) with
    | some boolValue => boolValue
    | none => defaultValue
  else defaultValue

/-- `getDurationEnv` from loader.go; `pd` models the external
`time.ParseDuration`. -/
def getDurationEnv (pd : String → Option Duration) (env : Env) (key : String)
    (defaultValue : Duration) : Duration :=
  if env key ≠ "" then
    match pd (env key) with
    | some duration => duration
    | none => defaultValue
  else defaultValue

namespace Loader

/-- `Loader.LoadFromFile` from loader.go: reading and unmarshalling go through
the external `viper` library, modelled by `fd`; both failure points
(`ReadInConfig`, `Unmarshal`) surface as an error to the caller. -/
def LoadFromFile (fd : String → Except String Config) (configPath : String) :
    Except String Config :=
  fd configPath

/-- The record built in the body of `Loader.LoadFromEnvironment` (loader.go):
every field populated from its environment key with its hardcoded default. -/
def environmentRecord (pd : String → Option Duration) (env : Env) : Config :=
    { Server :=
        { Port := getEnv env "SERVER_PORT" "8080"
          Host := getEnv env "SERVER_HOST" "0.0.0.0"
          ReadTimeout := getDurationEnv pd env "SERVER_READ_TIMEOUT" (30 * timeSecond)
          WriteTimeout := getDurationEnv pd env "SERVER_WRITE_TIMEOUT" (30 * timeSecond)
          IdleTimeout := getDurationEnv pd env "SERVER_IDLE_TIMEOUT" (60 * timeSecond) }
      Database :=
        { DatabaseConfig.zero with
          Host := getEnv env "DB_HOST" "localhost"
          Port := getEnv env "DB_PORT" "5432"
          User := getEnv env "DB_USER" "postgres"
          Password := getEnv env "DB_PASSWORD" ""
          DBName := getEnv env "DB_NAME" "app"
          SSLMode := getEnv env "DB_SSL_MODE" "disable"
          MaxConns := getIntEnv env "DB_MAX_CONNS" 10 }
      Redis :=
        { Host := getEnv env "REDIS_HOST" "localhost"
          Port := getEnv env "REDIS_PORT" "6379"
          Password := getEnv env "REDIS_PASSWORD" ""
          DB := getIntEnv env "REDIS_DB" 0 }
      Log :=
        { Level := getEnv env "LOG_LEVEL" "info"
          Format := getEnv env "LOG_FORMAT" "json"
          OutputPath := getEnv env "LOG_OUTPUT_PATH" "" }
      JWT :=
        { Secret := getEnv env "JWT_SECRET" "your-secret-key"
          Expiration := getDurationEnv pd env "JWT_EXPIRATION" (24 * timeHour)
          Issuer := getEnv env "JWT_ISSUER" "app" }
      Email :=
        { Host := getEnv env "EMAIL_HOST" ""
          Port := getIntEnv env "EMAIL_PORT" 587
          Username := getEnv env "EMAIL_USERNAME" ""
          Password := getEnv env "EMAIL_PASSWORD" ""
          From := getEnv env "EMAIL_FROM" "" }
      App :=
        { Name := getEnv env "APP_NAME" "app"
          Environment := getEnv env "APP_ENVIRONMENT" "development"
          Version := getEnv env "APP_VERSION" "1.0.0"
          Debug := getBoolEnv env "APP_DEBUG" false } }

/-- `Loader.LoadFromEnvironment` from loader.go: builds the record above and
returns it with a `nil` error — this path can never fail. -/
def LoadFromEnvironment (pd : String → Option Duration) (env : Env) :
    Except String Config :=
  .ok (environmentRecord pd env)

/-- `Loader.Load` from loader.go: dispatch on the strategy; the Go `switch`
on an `int` falls through to the `default` arm (Environment) for values other
than the three named constants. -/
def Load (pd : String → Option Duration) (fd : String → Except String Config)
    (env : Env) (strategy : LoadStrategy) : Except String Config :=
  if strategy = FileStrategy then
    LoadFromFile fd (getEnv env "CONFIG_PATH" "config.yaml")
  else if strategy = EnvironmentStrategy then
    LoadFromEnvironment pd env
  else if strategy = HybridStrategy then
    -- Try file first, fallback to environment
    if getEnv env "CONFIG_PATH" "" ≠ "" then
      match LoadFromFile fd (getEnv env "CONFIG_PATH" "") with
      | .ok config => .ok config
      | .error _ => LoadFromEnvironment pd env
    else LoadFromEnvironment pd env
  else LoadFromEnvironment pd env

end Loader

/-! ## validator.go — rule groups and the aggregate pass -/

/-- Model of Go `strconv.Atoi` success (used for port checks in validator.go):
an optional sign followed by one or more digits making up the whole string.
The 64-bit range check is not modelled; no claim depends on it. -/
def atoi (s : String) : Option Int :=
  match s.data with
  | '-' :: rest => (digitsToNat rest).map (fun n => -(n : Int))
  | '+' :: rest => (digitsToNat rest).map (fun n => (n : Int))
  | l => (digitsToNat l).map (fun n => (n : Int))

/-- `ValidationError` from validator.go. -/
structure ValidationError where
  Errors : List String
  deriving Repr, DecidableEq

/-- `Validator` from validator.go: carries the message accumulator. -/
structure Validator where
  errors : List String
  deriving Repr, DecidableEq

/-- `NewValidator` from validator.go. -/
def NewValidator : Validator := { errors := [] }

namespace Validator

/-- `Validator.validateServer`: the messages this rule group appends, in
source order. -/
def validateServer (config : ServerConfig) : List String :=
  (if config.Port = "" then ["server port is required"]
   else if (atoi config.Port).isNone then ["server port must be a valid integer"]
   else [])
  ++ (if config.Host = "" then ["server host is required"] else [])
  ++ (if config.ReadTimeout ≤ 0 then ["server read timeout must be positive"] else [])
  ++ (if config.WriteTimeout ≤ 0 then ["server write timeout must be positive"] else [])
  ++ (if config.IdleTimeout ≤ 0 then ["server idle timeout must be positive"] else [])

/-- `Validator.validateDatabase`: the messages this rule group appends, in
source order. -/
def validateDatabase (config : DatabaseConfig) : List String :=
  (if config.Host = "" then ["database host is required"] else [])
  ++ (if config.Port = "" then ["database port is required"]
      else if (atoi config.Port).isNone then ["database port must be a valid integer"]
      else [])
  ++ (if config.User = "" then ["database user is required"] else [])
  ++ (if config.DBName = "" then ["database name is required"] else [])
  ++ (if config.MaxConns ≤ 0 then ["database max connections must be positive"] else [])
  ++ (if config.SSLMode = "disable" ∨ config.SSLMode = "require" ∨
         config.SSLMode = "verify-ca" ∨ config.SSLMode = "verify-full" then []
      else ["database SSL mode must be one of: disable, require, verify-ca, verify-full"])

/-- `Validator.validateRedis`: the messages this rule group appends, in
source order. -/
def validateRedis (config : RedisConfig) : List String :=
  (if config.Host = "" then ["redis host is required"] else [])
  ++ (if config.Port = "" then ["redis port is required"]
      else if (atoi config.Port).isNone then ["redis port must be a valid integer"]
      else [])
  ++ (if config.DB < 0 ∨ config.DB > 15 then
        ["redis database number must be between 0 and 15"]
      else [])

/-- `Validator.validateLog`: the messages this rule group appends, in
source order; both membership checks are on the lowercased value. -/
def validateLog (config : LogConfig) : List String :=
  (if lowerStr config.Level = "debug" ∨ lowerStr config.Level = "info" ∨
      lowerStr config.Level = "warn" ∨ lowerStr config.Level = "warning" ∨
      lowerStr config.Level = "error" ∨ lowerStr config.Level = "fatal" ∨
      lowerStr config.Level = "panic" then []
   else ["log level must be one of: debug, info, warn, warning, error, fatal, panic"])
  ++ (if lowerStr config.Format = "json" ∨ lowerStr config.Format = "text" ∨
         lowerStr config.Format = "console" then []
      else ["log format must be one of: json, text, console"])

/-- `Validator.validateJWT`: the messages this rule group appends, in
source order. Go measures `len(config.Secret)` in bytes; the model uses the
character count, which agrees on ASCII secrets. -/
def validateJWT (config : JWTConfig) : List String :=
  (if config.Secret = "" then ["JWT secret is required"]
   else if config.Secret.length < 32 then
     ["JWT secret must be at least 32 characters long"]
   else [])
  ++ (if config.Expiration ≤ 0 then ["JWT expiration must be positive"] else [])
  ++ (if config.Issuer = "" then ["JWT issuer is required"] else [])

/-- `Validator.validateEmail`: evaluated only when the host is non-empty. -/
def validateEmail (config : EmailConfig) : List String :=
  if config.Host ≠ "" then
    (if config.Port ≤ 0 ∨ config.Port > 65535 then
       ["email port must be between 1 and 65535"]
     else [])
    ++ (if config.Username = "" then
          ["email username is required when email host is provided"]
        else [])
    ++ (if config.From = "" then
          ["email from address is required when email host is provided"]
        else [])
  else []

/-- `Validator.validateApp`: the messages this rule group appends, in
source order; the environment membership check is on the lowercased value. -/
def validateApp (config : AppConfig) : List String :=
  (if config.Name = "" then ["application name is required"] else [])
  ++ (if lowerStr config.Environment = "development" ∨
         lowerStr config.Environment = "staging" ∨
         lowerStr config.Environment = "production" ∨
         lowerStr config.Environment = "test" then []
      else ["application environment must be one of: development, staging, production, test"])
  ++ (if config.Version = "" then ["application version is required"] else [])

/-- All messages of one aggregate pass over a record: the seven rule groups
run in source order, each appending to the shared accumulator. -/
def allMessages (config : Config) : List String :=
  validateServer config.Server ++ validateDatabase config.Database ++
  validateRedis config.Redis ++ validateLog config.Log ++
  validateJWT config.JWT ++ validateEmail config.Email ++
  validateApp config.App

/-- `Validator.Validate` from validator.go: reset the accumulator
(`v.errors = make([]string, 0)`), run the seven rule groups, and return a
`ValidationError` exactly when the accumulator is non-empty. The updated
validator (with its mutated `errors` field) is returned alongside. -/
def Validate (v : Validator) (config : Config) :
    Validator × Option ValidationError :=
  let errs := allMessages config
  let v' : Validator := { v with errors := errs }
  if errs.length > 0 then (v', some { Errors := errs }) else (v', none)

end Validator

/-! ## manager.go — the stateful core -/

/-- Observers are compared and stored by identity in Go; an opaque identity
token suffices for the model. -/
abbrev Watcher := Nat

/-- One dispatched `OnConfigChanged(oldConfig, newConfig)` call handed to a
spawned goroutine by `notifyWatchers`. -/
abbrev Notification := Watcher × Config × Config

/-- `Manager` from manager.go. The `loader` field holds no state relevant to
this model (its `viper` instance only serves file reads, passed in as `fd`);
the mutex is a concurrency artifact handled by the trace model below. -/
structure Manager where
  config : Option Config
  validator : Validator
  watchers : List Watcher
  deriving Repr, DecidableEq

/-- `NewManager` from manager.go. -/
def NewManager : Manager :=
  { config := none, validator := NewValidator, watchers := [] }

namespace Manager

/-- `Manager.notifyWatchers`: one goroutine per registered watcher, each
handed `(oldConfig, newConfig)`. -/
def notifyWatchers (m : Manager) (oldConfig newConfig : Config) :
    List Notification :=
  m.watchers.map (fun w => (w, oldConfig, newConfig))

/-- `Manager.Load` from manager.go: load via the Loader, validate, install,
and notify. Returns the post-call manager, `none` on success or the wrapped
error message, and the list of dispatched observer notifications. -/
def Load (m : Manager) (pd : String → Option Duration)
    (fd : String → Except String Config) (env : Env) (strategy : LoadStrategy) :
    Manager × Option String × List Notification :=
  match Loader.Load pd fd env strategy with
  | .error e => (m, some ("failed to load configuration: " ++ e), [])
  | .ok config =>
    match m.validator.Validate config with
    | (v', some ve) =>
      ({ m with validator := v' },
       some ("configuration validation failed: configuration validation failed: "
             ++ String.intercalate "; " ve.Errors),
       [])
    | (v', none) =>
      let oldConfig := m.config
      let m' : Manager := { m with validator := v', config := some config }
      match oldConfig with
      | some old => (m', none, m.notifyWatchers old config)
      | none => (m', none, [])

/-- `Manager.GetConfig`. -/
def GetConfig (m : Manager) : Option Config := m.config

/-- `Manager.GetServerConfig`. -/
def GetServerConfig (m : Manager) : ServerConfig :=
  match m.config with
  | none => ServerConfig.zero
  | some c => c.Server

/-- `Manager.GetDatabaseConfig`. -/
def GetDatabaseConfig (m : Manager) : DatabaseConfig :=
  match m.config with
  | none => DatabaseConfig.zero
  | some c => c.Database

/-- `Manager.GetRedisConfig`. -/
def GetRedisConfig (m : Manager) : RedisConfig :=
  match m.config with
  | none => RedisConfig.zero
  | some c => c.Redis

/-- `Manager.GetLogConfig`. -/
def GetLogConfig (m : Manager) : LogConfig :=
  match m.config with
  | none => LogConfig.zero
  | some c => c.Log

/-- `Manager.GetJWTConfig`. -/
def GetJWTConfig (m : Manager) : JWTConfig :=
  match m.config with
  | none => JWTConfig.zero
  | some c => c.JWT

/-- `Manager.GetEmailConfig`. -/
def GetEmailConfig (m : Manager) : EmailConfig :=
  match m.config with
  | none => EmailConfig.zero
  | some c => c.Email

/-- `Manager.GetAppConfig`. -/
def GetAppConfig (m : Manager) : AppConfig :=
  match m.config with
  | none => AppConfig.zero
  | some c => c.App

/-- `Manager.AddWatcher`. -/
def AddWatcher (m : Manager) (watcher : Watcher) : Manager :=
  { m with watchers := m.watchers ++ [watcher] }

/-- `Manager.IsLoaded`. -/
def IsLoaded (m : Manager) : Bool := m.config.isSome

/-- The strategy heuristic at the top of `Manager.Reload`: `File` iff a
record is loaded and its `App.Environment` equals (case-sensitively)
`"production"`, else `Environment`. -/
def reloadStrategy (m : Manager) : LoadStrategy :=
  match m.config with
  | some c => if c.App.Environment = "production" then FileStrategy else EnvironmentStrategy
  | none => EnvironmentStrategy

/-- `Manager.Reload`: `Load` with the heuristically chosen strategy. -/
def Reload (m : Manager) (pd : String → Option Duration)
    (fd : String → Except String Config) (env : Env) :
    Manager × Option String × List Notification :=
  m.Load pd fd env m.reloadStrategy

/-- `Manager.ValidateCurrent`: distinct "not loaded" error when no record is
installed, else run the Validator on the current record (which mutates the
validator's accumulator but nothing else). -/
def ValidateCurrent (m : Manager) : Manager × Option String :=
  match m.config with
  | none => (m, some "no configuration loaded")
  | some config =>
    match m.validator.Validate config with
    | (v', some ve) =>
      ({ m with validator := v' },
       some ("configuration validation failed: " ++ String.intercalate "; " ve.Errors))
    | (v', none) => ({ m with validator := v' }, none)

/-- `Manager.IsDevelopment`. -/
def IsDevelopment (m : Manager) : Bool :=
  m.GetAppConfig.Environment = "development"

/-- `Manager.IsProduction`. -/
def IsProduction (m : Manager) : Bool :=
  m.GetAppConfig.Environment = "production"

/-- `Manager.IsDebug`. -/
def IsDebug (m : Manager) : Bool := m.GetAppConfig.Debug

end Manager

/-! ## Lock-order trace of `Manager.Load` (manager.go lines 32–56)

`Manager.Load` starts with `m.mutex.Lock()` and `defer m.mutex.Unlock()`, so
the unlock fires at whichever `return` is reached. The events of one call,
in program order, are recorded as a trace: acquire the exclusive lock, call
`m.loader.Load` (the source fetch), call `m.validator.Validate`, install the
new record, spawn the watcher goroutines (only when a previous record
existed), and release the lock via the deferred unlock at `return`. -/

/-- One observable event of a `Manager.Load` call. -/
inductive LoadEvent where
  | lock
  | loaderCall
  | validatorCall
  | install
  | spawnNotify
  | unlock
  deriving Repr, DecidableEq, BEq

/-- The event trace of one `Manager.Load` call, transcribed from the control
flow of manager.go: `loaderFails` selects the first early `return`,
`validationFails` the second, `hadPrev` whether `oldConfig != nil` (so
`notifyWatchers` spawns goroutines). The deferred `Unlock` runs at every
`return`. -/
def loadTrace (loaderFails validationFails hadPrev : Bool) : List LoadEvent :=
  [LoadEvent.lock, LoadEvent.loaderCall] ++
  (if loaderFails then [LoadEvent.unlock]
   else [LoadEvent.validatorCall] ++
     (if validationFails then [LoadEvent.unlock]
      else [LoadEvent.install] ++
        (if hadPrev then [LoadEvent.spawnNotify] else []) ++
        [LoadEvent.unlock]))

/-- The lock discipline §5 of the spec claims for `Manager.Load` on a
successful reload with a prior record: the source fetch and the validation
each lie outside the lock–unlock critical section, and the observer spawn
happens only after the unlock. -/
def specLockDiscipline (t : List LoadEvent) : Prop :=
  (t.indexOf LoadEvent.loaderCall < t.indexOf LoadEvent.lock ∨
   t.indexOf LoadEvent.unlock < t.indexOf LoadEvent.loaderCall) ∧
  (t.indexOf LoadEvent.validatorCall < t.indexOf LoadEvent.lock ∨
   t.indexOf LoadEvent.unlock < t.indexOf LoadEvent.validatorCall) ∧
  t.indexOf LoadEvent.unlock < t.indexOf LoadEvent.spawnNotify

/-! ## Concrete fixtures used by witnesses and counterexamples -/

/-- An environment with nothing set: every `os.Getenv` returns `""`. -/
def emptyEnv : Env := fun _ => ""

/-- A `time.ParseDuration` stand-in that rejects every string (no claim's
input carries a well-formed duration). -/
def noPd : String → Option Duration := fun _ => none

/-- A file source on which every read fails, as for a missing or unreadable
file. -/
def noFd : String → Except String Config := fun _ =>
  .error "open bad.yaml: no such file or directory"

/-- The record `LoadFromEnvironment` builds when no environment variable is
set: the hardcoded default of every key, spelled out. -/
def defaultConfig : Config :=
  { Server :=
      { Port := "8080", Host := "0.0.0.0", ReadTimeout := 30 * timeSecond
        WriteTimeout := 30 * timeSecond, IdleTimeout := 60 * timeSecond }
    Database :=
      { DatabaseConfig.zero with
        Host := "localhost", Port := "5432", User := "postgres", Password := ""
        DBName := "app", SSLMode := "disable", MaxConns := 10 }
    Redis := { Host := "localhost", Port := "6379", Password := "", DB := 0 }
    Log := { Level := "info", Format := "json", OutputPath := "" }
    JWT := { Secret := "your-secret-key", Expiration := 24 * timeHour, Issuer := "app" }
    Email := { Host := "", Port := 587, Username := "", Password := "", From := "" }
    App := { Name := "app", Environment := "development", Version := "1.0.0", Debug := false } }

/-- An environment that only overrides the JWT secret with a 32-character
value, so the loaded record passes validation. -/
def goodEnv : Env := fun k =>
  if k = "JWT_SECRET" then "0123456789abcdef0123456789abcdef" else ""

/-- The record `Load(Environment)` produces under `goodEnv`; it passes every
validation rule. -/
def goodCfg : Config :=
  { defaultConfig with
    JWT := { Secret := "0123456789abcdef0123456789abcdef"
             Expiration := 24 * timeHour, Issuer := "app" } }

/-- A second valid record, used as the previously installed one in
reload scenarios. -/
def oldCfg : Config :=
  { goodCfg with App := { goodCfg.App with Version := "0.9.0" } }

/-- A manager that already holds `oldCfg` and has one registered watcher. -/
def mLoaded : Manager :=
  { config := some oldCfg, validator := NewValidator, watchers := [5] }

/-- A record with exactly three independent violations: empty server port,
empty database host, and a 5-character JWT secret; every other rule holds. -/
def cfg3 : Config :=
  { goodCfg with
    Server := { goodCfg.Server with Port := "" }
    Database := { goodCfg.Database with Host := "" }
    JWT := { goodCfg.JWT with Secret := "12345" } }

/-- An environment that points `CONFIG_PATH` at an unreadable file and sets a
server port, for the Hybrid-fallback scenario. -/
def hybridEnv : Env := fun k =>
  if k = "CONFIG_PATH" then "bad.yaml"
  else if k = "SERVER_PORT" then "9090"
  else if k = "JWT_SECRET" then "0123456789abcdef0123456789abcdef" else ""

/-- An environment whose integer, boolean and duration keys hold malformed
values. -/
def malformedEnv : Env := fun k =>
  if k = "DB_MAX_CONNS" then "abc"
  else if k = "APP_DEBUG" then "maybe"
  else if k = "SERVER_READ_TIMEOUT" then "bogus" else ""

/-- A valid record whose `App.Environment` is the mixed-case `"Production"`. -/
def prodCaseCfg : Config :=
  { goodCfg with App := { goodCfg.App with Environment := "Production" } }

/-- A manager currently holding `prodCaseCfg`. -/
def mProdCase : Manager :=
  { config := some prodCaseCfg, validator := NewValidator, watchers := [] }

/-! ## Shared unfolding lemmas -/

/-- Closed form of `Validator.Validate`: the returned validator carries the
aggregated message list, and the verdict is a `ValidationError` exactly when
that list is non-empty. -/
theorem validate_unfold (u : Validator) (cc : Config) :
    u.Validate cc =
      (⟨Validator.allMessages cc⟩,
       if (Validator.allMessages cc).length > 0
       then some ⟨Validator.allMessages cc⟩ else none) := by
  unfold Validator.Validate
  split <;> simp_all

/-- Closed form of `Manager.Load`: the three outcomes (loader failure,
validation failure, successful install) with the resulting manager, verdict
and dispatched notifications. -/
theorem load_unfold (m : Manager) (pd : String → Option Duration)
    (fd : String → Except String Config) (env : Env) (strategy : LoadStrategy) :
    m.Load pd fd env strategy =
      match Loader.Load pd fd env strategy with
      | .error e => (m, some ("failed to load configuration: " ++ e), [])
      | .ok cfg =>
        if (Validator.allMessages cfg).length > 0 then
          ({ m with validator := ⟨Validator.allMessages cfg⟩ },
           some ("configuration validation failed: configuration validation failed: "
                 ++ String.intercalate "; " (Validator.allMessages cfg)),
           [])
        else
          ({ m with validator := ⟨Validator.allMessages cfg⟩, config := some cfg },
           none,
           match m.config with
           | some old => m.watchers.map (fun w => (w, old, cfg))
           | none => []) := by
  unfold Manager.Load
  rcases hL : Loader.Load pd fd env strategy with eL | cfg
  · rfl
  · dsimp only
    rw [validate_unfold m.validator cfg]
    by_cases hc : (Validator.allMessages cfg).length > 0
    · simp only [if_pos hc]
    · simp only [if_neg hc]
      rcases hO : m.config with _ | old <;> rfl

/-! ## Claims -/

/-- C6: on a freshly constructed, never-loaded Manager, the whole-record
accessor returns the zero value (`nil`), and each of the seven per-section
accessors returns its section's zero value — empty strings, zero numbers and
durations — rather than failing. -/
theorem fresh_manager_accessors_zero :
    NewManager.GetConfig = none ∧
    NewManager.GetServerConfig = ServerConfig.zero ∧
    NewManager.GetDatabaseConfig = DatabaseConfig.zero ∧
    NewManager.GetRedisConfig = RedisConfig.zero ∧
    NewManager.GetLogConfig = LogConfig.zero ∧
    NewManager.GetJWTConfig = JWTConfig.zero ∧
    NewManager.GetEmailConfig = EmailConfig.zero ∧
    NewManager.GetAppConfig = AppConfig.zero ∧
    NewManager.GetServerConfig.Port = "" ∧
    NewManager.GetServerConfig.Host = "" ∧
    NewManager.GetServerConfig.ReadTimeout = 0 ∧
    NewManager.GetServerConfig.WriteTimeout = 0 ∧
    NewManager.GetServerConfig.IdleTimeout = 0 :=
  ⟨rfl, rfl, rfl, rfl, rfl, rfl, rfl, rfl, rfl, rfl, rfl, rfl, rfl⟩

/-- C8: `Validate` is deterministic (its verdict does not depend on the
validator's accumulated state), running it twice in a row returns the very
same validator and verdict, and `ValidateCurrent` never changes the
manager's current record or its watcher list — and repeating
`ValidateCurrent` returns the same verdict. -/
theorem validate_idempotent_and_pure (v w : Validator) (c : Config) (m : Manager) :
    (v.Validate c).2 = (w.Validate c).2 ∧
    (v.Validate c).1.Validate c = v.Validate c ∧
    m.ValidateCurrent.1.config = m.config ∧
    m.ValidateCurrent.1.watchers = m.watchers ∧
    m.ValidateCurrent.1.ValidateCurrent.2 = m.ValidateCurrent.2 := by
  have hval : ∀ (u : Validator) (cc : Config), u.Validate cc =
      (⟨Validator.allMessages cc⟩,
       if (Validator.allMessages cc).length > 0
       then some ⟨Validator.allMessages cc⟩ else none) := by
    intro u cc
    unfold Validator.Validate
    split <;> simp_all
  refine ⟨by rw [hval v c, hval w c],
          by rw [hval v c, hval ⟨Validator.allMessages c⟩ c], ?_⟩
  obtain ⟨cfgOpt, val, ws⟩ := m
  rcases cfgOpt with _ | cc
  · exact ⟨rfl, rfl, rfl⟩
  · unfold Manager.ValidateCurrent
    simp only
    rw [hval val cc]
    by_cases hc : (Validator.allMessages cc).length > 0
    · rw [if_pos hc]
      refine ⟨rfl, rfl, ?_⟩
      simp only
      rw [hval ⟨Validator.allMessages cc⟩ cc, if_pos hc]
    · rw [if_neg hc]
      refine ⟨rfl, rfl, ?_⟩
      simp only
      rw [hval ⟨Validator.allMessages cc⟩ cc, if_neg hc]

/-- C9 counterexample: in `Manager.Load`'s event trace for a successful load
with a prior record, the spec's lock discipline fails — the loader call and
the validation both sit strictly inside the lock–unlock critical section,
and the watcher goroutines are spawned before the deferred unlock runs. -/
theorem load_lock_discipline_refuted :
    ¬ specLockDiscipline (loadTrace false false true) := by
  unfold specLockDiscipline
  decide

/-- C9 amended: `Manager.Load` acquires the exclusive lock on entry and
releases it only on return; the source fetch, the validation, the record
install and the spawning of observer goroutines all happen between the lock
acquisition and the release, in every outcome of the call. -/
theorem load_lock_held_for_entire_call :
    ∀ loaderFails validationFails hadPrev : Bool,
      (loadTrace loaderFails validationFails hadPrev).head? = some LoadEvent.lock ∧
      (loadTrace loaderFails validationFails hadPrev).getLast? = some LoadEvent.unlock ∧
      (loadTrace loaderFails validationFails hadPrev).count LoadEvent.lock = 1 ∧
      (loadTrace loaderFails validationFails hadPrev).count LoadEvent.unlock = 1 := by
  decide

/-- C1: whenever `Manager.Load` returns an error — the Loader failed or the
Validator rejected the new record — the manager's current record is exactly
what it was before the call; the record reference changes only on success. -/
theorem load_failure_preserves_record (m : Manager) (pd : String → Option Duration)
    (fd : String → Except String Config) (env : Env) (strategy : LoadStrategy)
    (e : String) (h : (m.Load pd fd env strategy).2.1 = some e) :
    (m.Load pd fd env strategy).1.config = m.config := by
  rw [load_unfold] at h ⊢
  rcases hL : Loader.Load pd fd env strategy with eL | cfg
  · rfl
  · rw [hL] at h
    dsimp only at h ⊢
    by_cases hc : (Validator.allMessages cfg).length > 0
    · rw [if_pos hc]
    · rw [if_neg hc] at h
      simp at h

/-- C1 witness: a `File`-strategy load over an unreadable file fails and the
previously installed record is untouched. -/
theorem load_failure_preserves_record_witness :
    (Manager.Load mLoaded noPd noFd emptyEnv FileStrategy).1.config = mLoaded.config :=
  load_failure_preserves_record mLoaded noPd noFd emptyEnv FileStrategy
    ("failed to load configuration: " ++ "open bad.yaml: no such file or directory")
    (by rfl)

set_option maxHeartbeats 1000000 in
/-- C2: `Validate` succeeds exactly when no rule of any section is violated;
on failure the `ValidationError` lists every violated rule's message across
all seven sections (the groups are concatenated, never short-circuited), and
the record with exactly three independent violations yields exactly those
three messages. -/
theorem validate_aggregates_all_messages :
    (∀ (v : Validator) (c : Config),
      (v.Validate c).2 =
        if Validator.allMessages c = [] then none
        else some ⟨Validator.allMessages c⟩) ∧
    (∀ (v : Validator) (c : Config),
      ((v.Validate c).2 = none ↔ Validator.allMessages c = [])) ∧
    (NewValidator.Validate cfg3).2 =
      some ⟨["server port is required", "database host is required",
             "JWT secret must be at least 32 characters long"]⟩ := by
  have h1 : ∀ (v : Validator) (c : Config),
      (v.Validate c).2 =
        if Validator.allMessages c = [] then none
        else some ⟨Validator.allMessages c⟩ := by
    intro v c
    unfold Validator.Validate
    rcases h : Validator.allMessages c with _ | ⟨a, l⟩ <;> simp [h]
  refine ⟨h1, fun v c => by rw [h1 v c]; split <;> simp_all, ?_⟩
  rw [h1, show Validator.allMessages cfg3 =
    ["server port is required", "database host is required",
     "JWT secret must be at least 32 characters long"] from by decide]
  rfl

/-- C3: a successful `Manager.Load` dispatches no notification when no record
was previously installed, and dispatches exactly one notification per
registered watcher, each carrying the (previous, new) record pair, when one
was. -/
theorem load_success_notifications (m : Manager) (pd : String → Option Duration)
    (fd : String → Except String Config) (env : Env) (strategy : LoadStrategy) :
    ((m.Load pd fd env strategy).2.1 = none → m.config = none →
      (m.Load pd fd env strategy).2.2 = []) ∧
    (∀ old newCfg, (m.Load pd fd env strategy).2.1 = none →
      m.config = some old → (m.Load pd fd env strategy).1.config = some newCfg →
      (m.Load pd fd env strategy).2.2 =
        m.watchers.map (fun w => (w, old, newCfg))) := by
  constructor
  · intro h hO
    rw [load_unfold] at h ⊢
    rcases hL : Loader.Load pd fd env strategy with eL | cfg
    · rfl
    · dsimp only
      by_cases hc : (Validator.allMessages cfg).length > 0
      · rw [if_pos hc]
      · rw [if_neg hc]
        rw [hO]
  · intro old newCfg h hO hN
    rw [load_unfold] at h hN ⊢
    rcases hL : Loader.Load pd fd env strategy with eL | cfg
    · rw [hL] at h
      simp at h
    · rw [hL] at h hN
      dsimp only at h hN ⊢
      by_cases hc : (Validator.allMessages cfg).length > 0
      · rw [if_pos hc] at h
        simp at h
      · rw [if_neg hc] at hN ⊢
        have hcn : cfg = newCfg := by
          simpa using hN
        subst hcn
        rw [hO]

set_option maxHeartbeats 1000000 in
/-- C3 witness: the very first successful load dispatches no notification;
the next successful load on a manager holding `oldCfg` with one watcher
dispatches exactly one `(5, oldCfg, goodCfg)` notification. -/
theorem load_success_notifications_witness :
    (Manager.Load NewManager noPd noFd goodEnv EnvironmentStrategy).2.2 = [] ∧
    (Manager.Load mLoaded noPd noFd goodEnv EnvironmentStrategy).2.2 =
      [(5, oldCfg, goodCfg)] := by
  constructor
  · exact (load_success_notifications NewManager noPd noFd goodEnv
      EnvironmentStrategy).1 (by decide) rfl
  · have h := (load_success_notifications mLoaded noPd noFd goodEnv
      EnvironmentStrategy).2 oldCfg goodCfg (by decide) rfl (by decide)
    rw [h]
    rfl

/-- C4: the Hybrid strategy never returns an error at the Loader layer; it
prefers a successful file read, and on any failure of the file path it falls
back to the environment-derived record. -/
theorem hybrid_falls_back_to_environment (pd : String → Option Duration)
    (fd : String → Except String Config) (env : Env) :
    (∃ c, Loader.Load pd fd env HybridStrategy = .ok c) ∧
    (∀ e, fd (getEnv env "CONFIG_PATH" "") = .error e →
      Loader.Load pd fd env HybridStrategy =
        .ok (Loader.environmentRecord pd env)) ∧
    (∀ c, getEnv env "CONFIG_PATH" "" ≠ "" →
      fd (getEnv env "CONFIG_PATH" "") = .ok c →
      Loader.Load pd fd env HybridStrategy = .ok c) := by
  have hred : Loader.Load pd fd env HybridStrategy =
      if getEnv env "CONFIG_PATH" "" ≠ "" then
        match fd (getEnv env "CONFIG_PATH" "") with
        | .ok config => .ok config
        | .error _ => .ok (Loader.environmentRecord pd env)
      else .ok (Loader.environmentRecord pd env) := by
    unfold Loader.Load
    norm_num [HybridStrategy, FileStrategy, EnvironmentStrategy,
      Loader.LoadFromFile, Loader.LoadFromEnvironment]
  refine ⟨?_, ?_, ?_⟩
  · rw [hred]
    by_cases hp : getEnv env "CONFIG_PATH" "" ≠ ""
    · rw [if_pos hp]
      rcases hf : fd (getEnv env "CONFIG_PATH" "") with e | c
      · exact ⟨Loader.environmentRecord pd env, rfl⟩
      · exact ⟨c, rfl⟩
    · rw [if_neg hp]
      exact ⟨Loader.environmentRecord pd env, rfl⟩
  · intro e he
    rw [hred]
    by_cases hp : getEnv env "CONFIG_PATH" "" ≠ ""
    · rw [if_pos hp, he]
    · rw [if_neg hp]
  · intro c hp hf
    rw [hred, if_pos hp, hf]

/-- C4 witness: with `CONFIG_PATH` pointing at an unreadable file and
`SERVER_PORT=9090` in the environment, `Load(Hybrid)` succeeds with the
environment-derived record. -/
theorem hybrid_falls_back_to_environment_witness :
    Loader.Load noPd noFd hybridEnv HybridStrategy =
      .ok (Loader.environmentRecord noPd hybridEnv) ∧
    (Loader.environmentRecord noPd hybridEnv).Server.Port = "9090" :=
  ⟨(hybrid_falls_back_to_environment noPd noFd hybridEnv).2.1
      "open bad.yaml: no such file or directory" rfl,
   by decide⟩

/-- C5: the Environment strategy (and any unrecognized strategy value)
always returns the fully populated environment record and never an error;
with nothing set every field is its hardcoded default, and a
present-but-malformed integer, boolean or duration value silently falls
back to that key's default. -/
theorem environment_strategy_never_fails (pd : String → Option Duration)
    (fd : String → Except String Config) (env : Env) (strategy : LoadStrategy) :
    Loader.Load pd fd env EnvironmentStrategy =
      .ok (Loader.environmentRecord pd env) ∧
    (strategy ≠ EnvironmentStrategy → strategy ≠ FileStrategy →
      strategy ≠ HybridStrategy →
      Loader.Load pd fd env strategy = .ok (Loader.environmentRecord pd env)) ∧
    ((∀ k, env k = "") → Loader.environmentRecord pd env = defaultConfig) ∧
    (env "DB_MAX_CONNS" ≠ "" → parseInt (env "DB_MAX_CONNS") = none →
      (Loader.environmentRecord pd env).Database.MaxConns = 10) ∧
    (env "APP_DEBUG" ≠ "" → parseBool (env "APP_DEBUG") = none →
      (Loader.environmentRecord pd env).App.Debug = false) ∧
    (env "SERVER_READ_TIMEOUT" ≠ "" → pd (env "SERVER_READ_TIMEOUT") = none →
      (Loader.environmentRecord pd env).Server.ReadTimeout = 30 * timeSecond) := by
  refine ⟨?_, ?_, ?_, ?_, ?_, ?_⟩
  · unfold Loader.Load
    norm_num [EnvironmentStrategy, FileStrategy, Loader.LoadFromEnvironment]
  · intro h0 h1 h2
    unfold Loader.Load
    rw [if_neg h1, if_neg h0, if_neg h2]
    rfl
  · intro hk
    unfold Loader.environmentRecord
    simp [getEnv, getIntEnv, getBoolEnv, getDurationEnv, hk, defaultConfig]
  · intro h1 h2
    unfold Loader.environmentRecord
    dsimp only
    rw [getIntEnv, if_pos h1, h2]
  · intro h1 h2
    unfold Loader.environmentRecord
    dsimp only
    rw [getBoolEnv, if_pos h1, h2]
  · intro h1 h2
    unfold Loader.environmentRecord
    dsimp only
    rw [getDurationEnv, if_pos h1, h2]

/-- C5 witness: strategy value 7 behaves as Environment; the all-empty
environment yields exactly the hardcoded defaults; and malformed
`DB_MAX_CONNS`, `APP_DEBUG` and `SERVER_READ_TIMEOUT` values fall back to
10, `false` and 30 seconds. -/
theorem environment_strategy_never_fails_witness :
    Loader.Load noPd noFd emptyEnv 7 = .ok (Loader.environmentRecord noPd emptyEnv) ∧
    Loader.environmentRecord noPd emptyEnv = defaultConfig ∧
    (Loader.environmentRecord noPd malformedEnv).Database.MaxConns = 10 ∧
    (Loader.environmentRecord noPd malformedEnv).App.Debug = false ∧
    (Loader.environmentRecord noPd malformedEnv).Server.ReadTimeout = 30 * timeSecond :=
  ⟨(environment_strategy_never_fails noPd noFd emptyEnv 7).2.1
      (by decide) (by decide) (by decide),
   (environment_strategy_never_fails noPd noFd emptyEnv 7).2.2.1 (fun k => rfl),
   (environment_strategy_never_fails noPd noFd malformedEnv 7).2.2.2.1
      (by decide) (by decide),
   (environment_strategy_never_fails noPd noFd malformedEnv 7).2.2.2.2.1
      (by decide) (by decide),
   (environment_strategy_never_fails noPd noFd malformedEnv 7).2.2.2.2.2
      (by decide) rfl⟩

/-- C7: the JWT secret rule is a length-32 boundary — an exactly-32-character
secret produces neither JWT-secret message, a non-empty secret of at most 31
characters produces the "at least 32 characters" message, and an empty
secret produces the required-secret message (and not the length message). -/
theorem jwt_secret_length_boundary (config : JWTConfig) :
    (config.Secret.length = 32 →
      "JWT secret must be at least 32 characters long" ∉ Validator.validateJWT config ∧
      "JWT secret is required" ∉ Validator.validateJWT config) ∧
    (config.Secret ≠ "" → config.Secret.length ≤ 31 →
      "JWT secret must be at least 32 characters long" ∈ Validator.validateJWT config) ∧
    (config.Secret = "" →
      "JWT secret is required" ∈ Validator.validateJWT config ∧
      "JWT secret must be at least 32 characters long" ∉ Validator.validateJWT config) := by
  unfold Validator.validateJWT
  refine ⟨?_, ?_, ?_⟩
  · intro h32
    have hne : config.Secret ≠ "" := by
      intro hz
      rw [hz] at h32
      simp at h32
    rw [if_neg hne, if_neg (by omega : ¬ config.Secret.length < 32)]
    split_ifs <;> constructor <;> decide
  · intro hne h31
    rw [if_neg hne, if_pos (by omega : config.Secret.length < 32)]
    simp
  · intro hz
    rw [if_pos hz]
    split_ifs <;> constructor <;> decide

/-- C7 witness: a 32-character secret draws no length complaint, a
31-character one draws the "at least 32 characters" message, and the empty
secret draws the required-secret message. -/
theorem jwt_secret_length_boundary_witness :
    "JWT secret must be at least 32 characters long" ∉
      Validator.validateJWT ⟨"0123456789abcdef0123456789abcdef", 1, "app"⟩ ∧
    "JWT secret must be at least 32 characters long" ∈
      Validator.validateJWT ⟨"0123456789abcdef0123456789abcde", 1, "app"⟩ ∧
    "JWT secret is required" ∈ Validator.validateJWT ⟨"", 1, "app"⟩ :=
  ⟨((jwt_secret_length_boundary ⟨"0123456789abcdef0123456789abcdef", 1, "app"⟩).1
      (by decide)).1,
   (jwt_secret_length_boundary ⟨"0123456789abcdef0123456789abcde", 1, "app"⟩).2.1
      (by decide) (by decide),
   ((jwt_secret_length_boundary ⟨"", 1, "app"⟩).2.2 rfl).1⟩

/-- C10: environment-name comparisons in the Manager are case-sensitive
while validation lowercases — a record whose `App.Environment` is
`"Production"` draws no environment violation from the Validator, yet
`IsProduction()` and `IsDevelopment()` return false and `Reload()`'s
heuristic picks the Environment strategy instead of File. -/
theorem environment_name_case_sensitivity (m : Manager) (c : Config)
    (hm : m.config = some c) (he : c.App.Environment = "Production") :
    "application environment must be one of: development, staging, production, test"
      ∉ Validator.validateApp c.App ∧
    m.IsProduction = false ∧
    m.IsDevelopment = false ∧
    m.reloadStrategy = EnvironmentStrategy := by
  have hlow : lowerStr c.App.Environment = "production" := by
    rw [he]
    decide
  have happ : m.GetAppConfig = c.App := by
    unfold Manager.GetAppConfig
    rw [hm]
  refine ⟨?_, ?_, ?_, ?_⟩
  · unfold Validator.validateApp
    rw [if_pos (Or.inr (Or.inr (Or.inl hlow)))]
    split_ifs <;> decide
  · unfold Manager.IsProduction
    rw [happ, he]
    decide
  · unfold Manager.IsDevelopment
    rw [happ, he]
    decide
  · unfold Manager.reloadStrategy
    rw [hm]
    dsimp only
    rw [if_neg (by rw [he]; decide)]

/-- C10 witness: the concrete manager holding a record with
`App.Environment = "Production"` exhibits all four behaviours. -/
theorem environment_name_case_sensitivity_witness :
    "application environment must be one of: development, staging, production, test"
      ∉ Validator.validateApp prodCaseCfg.App ∧
    mProdCase.IsProduction = false ∧
    mProdCase.IsDevelopment = false ∧
    mProdCase.reloadStrategy = EnvironmentStrategy :=
  environment_name_case_sensitivity mProdCase prodCaseCfg rfl rfl

end ConfigPkg
